import Mathlib

/-!
# DXX-Dashboard UDP tracker — verification development

Shallow embedding of the DXX-Redux/Rebirth UDP game tracker
(`scraper/udp-tracker.js`, in its two shipped variants) together with
proofs about its registry lifecycle, packet handlers, aggregator merge
and HTTP read surface.

Modelling conventions:
* A UDP packet is a `List Nat` of bytes (each intended `< 256`); reads past
  the end yield `0`, matching `Buffer` indexing on the byte-length-checked
  paths actually taken by the handlers (all reads are guarded by the same
  length checks the source performs, so out-of-range reads can only occur
  where the JS `packet[i]` yields `undefined`, which the source only uses
  in falsy tests — where `0` behaves identically).
* JS `Map` is an insertion-ordered association list `List (String × β)`:
  `set` on an existing key updates in place, otherwise appends; iteration
  and `find` walk in insertion order, as JS `for (const [k,v] of map)` does.
* Absent JS object properties (`undefined`) are modelled by field defaults
  (`0`, `""`, `false`, `none`) where the source only uses them in falsy
  tests or `|| 0` coalescing, which makes the two representations agree.
* Wall-clock effects: `Date.now()` and `new Date().toISOString()` are
  passed in as `now : Nat` / ISO-string parameters; `server.send` and file
  writes are I/O and are modelled by the returned send-descriptions
  (register-ACKs) where a claim depends on them.  The asynchronous
  `pendingInfoReqs++` performed inside UDP send callbacks is I/O-driven
  and is not part of the synchronous handler state transition modelled
  here.
* The textual gamelog parser module (`gamelog-parser.js`) is required by
  the tracker but its source is not in the repository snapshot; functions
  of the tracker that call into it take the parser (or its produced
  summary) as a parameter, faithfully to the module boundary.
-/

namespace DXX

/-! ## Byte-level decoding helpers (little-endian, as in the source) -/

/-- Byte access `packet[i]`; out-of-range reads give 0 (see header note). -/
def byteAt (p : List Nat) (i : Nat) : Nat := p.getD i 0

/-- `readUInt16LE(o)`. -/
def readU16 (p : List Nat) (o : Nat) : Nat :=
  byteAt p o + 256 * byteAt p (o + 1)

/-- `readUInt32LE(o)`. -/
def readU32 (p : List Nat) (o : Nat) : Nat :=
  byteAt p o + 256 * byteAt p (o + 1) + 65536 * byteAt p (o + 2)
    + 16777216 * byteAt p (o + 3)

/-- `readCString(buf, offset, maxLen)`: take at most `maxLen` bytes from
`offset`, stop at the first NUL inside that window, decode and strip every
character outside printable ASCII `0x20`–`0x7E` (the source's
`.replace(/[^\x20-\x7E]/g, '')`).  Per-byte filtering agrees with the
source's decode-then-strip because every byte of a non-ASCII UTF-8
sequence maps to a character `≥ 0x80`, which the regex strips. -/
def readCString (p : List Nat) (off maxLen : Nat) : String :=
  let window := (p.drop off).take maxLen
  let untilNul := window.takeWhile (fun b => b != 0)
  String.mk ((untilNul.filter (fun b => 0x20 ≤ b && b ≤ 0x7E)).map Char.ofNat)

/-! ## JS `Map` as an insertion-ordered association list -/

/-- `Map.prototype.get`. -/
def mapGet {β : Type} : List (String × β) → String → Option β
  | [], _ => none
  | kv :: m, k => if kv.1 = k then some kv.2 else mapGet m k

/-- `Map.prototype.set`: update in place when the key exists (its position
is kept), append otherwise. -/
def mapSet {β : Type} : List (String × β) → String → β → List (String × β)
  | [], k, v => [(k, v)]
  | kv :: m, k, v => if kv.1 = k then (k, v) :: m else kv :: mapSet m k v

/-- `Map.prototype.delete`. -/
def mapDelete {β : Type} : List (String × β) → String → List (String × β)
  | [], _ => []
  | kv :: m, k => if kv.1 = k then mapDelete m k else kv :: mapDelete m k

/-! ## Data model: player slots and match records -/

/-- One entry of a game's `players` array.  Kill counts are `Int` because
the full-info packet carries them as signed 16-bit values. -/
structure Player where
  name : String := ""
  connected : Nat := 0
  rank : Nat := 0
  color : Nat := 0
  kills : Int := 0
  deaths : Int := 0
  suicides : Int := 0
  score : Int := 0
  deriving Repr, DecidableEq

/-- A registry record (`activeGames` map value). -/
structure GameRec where
  id : String := ""
  ip : String := ""
  port : Nat := 0
  gameId : Nat := 0
  version : Nat := 0
  releaseMajor : Nat := 0
  releaseMinor : Nat := 0
  releaseMicro : Nat := 0
  registerIp : String := ""
  registerPort : Nat := 0
  lastSeen : Nat := 0
  pendingInfoReqs : Nat := 0
  confirmed : Bool := false
  broadcasted : Bool := false
  gameName : String := ""
  mission : String := ""
  missionName : String := ""
  level : Nat := 0
  gameMode : String := ""
  modeNum : Nat := 0
  difficulty : Nat := 0
  refusePlayers : Nat := 0
  statusNum : Nat := 0
  status : String := ""
  playerCount : Nat := 0
  maxPlayers : Nat := 0
  flags : Nat := 0
  netgameProto : Option Nat := none
  detailed : Bool := false
  timestamp : String := ""
  players : List Player := []
  deriving Repr, DecidableEq

/-- The `activeGames` map: `"ip:gamePort" → record`, insertion ordered. -/
abbrev Registry := List (String × GameRec)

/-- UDP sender info (`rinfo`). -/
structure Rinfo where
  address : String
  port : Nat
  deriving Repr, DecidableEq

/-! ## Shared helpers of both tracker variants -/

def modeNames : List String :=
  ["Anarchy", "Team Anarchy", "Robo Anarchy", "Cooperative",
   "Capture Flag", "Hoard", "Team Hoard", "Bounty"]

/-- `MODE_NAMES[mode] || dflt`. -/
def modeNameD (mode : Nat) (dflt : String) : String :=
  (modeNames.get? mode).getD dflt

def statusName (s : Nat) : String :=
  match s with
  | 0 => "Menu"
  | 1 => "Playing"
  | 2 => "Between"
  | 3 => "EndLevel"
  | 4 => "Forming"
  | _ => "Unknown"

/-- A player entry of the running textual-gamelog summary
(`gamelogSummary.players` / merged summary), produced by the external
`gamelog-parser` module's `summarize`. -/
structure LogPlayer where
  name : String
  kills : Int := 0
  deaths : Int := 0
  suicides : Int := 0
  deriving Repr, DecidableEq

/-! ## `handleRegister` (opcode 0) -/

/-- The fresh record literal built by `handleRegister` for a new key
(fields the literal does not mention keep their `undefined` defaults). -/
def freshGameRec : GameRec :=
  { gameName := "Pending…", mission := "Awaiting game info", level := 0,
    gameMode := "Unknown", difficulty := 0, status := "Registering",
    playerCount := 0, maxPlayers := 0, players := [],
    confirmed := false, broadcasted := false }

/-- `handleRegister(packet, rinfo)` acting on the registry.  The outgoing
lite-info probe (`sendGameInfoLiteReq`) is UDP I/O and not part of the
registry transition. -/
def handleRegister (now : Nat) (packet : List Nat) (r : Rinfo)
    (reg : Registry) : Registry :=
  if packet.length = 14 ∨ packet.length = 15 then
    let version := byteAt packet 2
    let gamePort := readU16 packet 3
    let gameId := readU32 packet 5
    let relMajor := readU16 packet 9
    let relMinor := readU16 packet 11
    let relMicro := if packet.length = 15 then readU16 packet 13
                    else byteAt packet 13
    if gamePort < 1024 then reg
    else
      let key := r.address ++ ":" ++ toString gamePort
      let reg1 :=
        match mapGet reg key with
        | some ex => if ex.gameId ≠ gameId then mapDelete reg key else reg
        | none => reg
      let base := (mapGet reg1 key).getD freshGameRec
      let g : GameRec :=
        { base with
            id := key, ip := r.address, port := gamePort,
            gameId := gameId, version := version,
            releaseMajor := relMajor, releaseMinor := relMinor,
            releaseMicro := relMicro,
            registerIp := r.address, registerPort := r.port,
            lastSeen := now, pendingInfoReqs := 0 }
      mapSet reg1 key g
  else reg

/-! ## `parseGameInfoLite` (73-byte opcode 5 payload) -/

/-- `parseGameInfoLite(packet, g)`: returns the updated record, or the
record unchanged when the embedded game-id mismatches a nonzero record
game-id (the JS `if (g.gameId && gameId !== g.gameId) return`). -/
def parseGameInfoLite (packet : List Nat) (g : GameRec) : GameRec :=
  let gameId := readU32 packet 7
  if g.gameId ≠ 0 ∧ gameId ≠ g.gameId then g
  else
    let gameName := readCString packet 11 16
    let missionTitle := readCString packet 27 26
    let missionName := readCString packet 53 9
    let levelNum := readU32 packet 62
    let mode := byteAt packet 66
    let refuse := byteAt packet 67
    let difficulty := byteAt packet 68
    let status := byteAt packet 69
    let players := byteAt packet 70
    let maxPlayers := byteAt packet 71
    let flags := byteAt packet 72
    { g with
      gameName := if gameName ≠ "" then gameName else "Unnamed Game",
      mission := if missionTitle ≠ "" then missionTitle
                 else if missionName ≠ "" then missionName else "Unknown",
      missionName := missionName,
      level := levelNum,
      gameMode := modeNameD mode "Unknown",
      modeNum := mode,
      difficulty := difficulty,
      refusePlayers := refuse,
      statusNum := status,
      status := statusName status,
      playerCount := players,
      maxPlayers := maxPlayers,
      flags := flags,
      gameId := gameId,
      players := (List.range players).map (fun i =>
        { name := s!"Player {i + 1}", kills := 0, deaths := 0,
          suicides := 0 }) }

/-! ## JS string primitives (executable, ASCII-faithful) -/

/-- ASCII lower-casing of one character (`String.prototype.toLowerCase`
restricted to ASCII, which covers every name the tracker handles: packet
strings are stripped to printable ASCII on decode). -/
def charLower (c : Char) : Char :=
  if 65 ≤ c.toNat ∧ c.toNat ≤ 90 then Char.ofNat (c.toNat + 32) else c

def jsToLower (s : String) : String := String.mk (s.data.map charLower)

/-- ASCII whitespace test for `String.prototype.trim`. -/
def isWsChar (c : Char) : Bool :=
  c == ' ' || c == '\t' || c == '\n' || c == '\r'

def jsTrim (s : String) : String :=
  String.mk (((s.data.dropWhile isWsChar).reverse.dropWhile isWsChar).reverse)

def startsWithChars : List Char → List Char → Bool
  | [], _ => true
  | _, [] => false
  | a :: as, b :: bs => a == b && startsWithChars as bs

/-- `url.startsWith(pre)`. -/
def jsStartsWith (s pre : String) : Bool := startsWithChars pre.data s.data

/-- `url.split('?')[0]`: everything before the first `?`. -/
def upToQuery (s : String) : String :=
  String.mk (s.data.takeWhile (fun c => c != '?'))

/-- `s.substring(n)` (code points; identical for the ASCII URLs here). -/
def strDropChars (s : String) (n : Nat) : String := String.mk (s.data.drop n)

/-! ## Textual-summary merge into a player slot -/

/-- The per-player overwrite performed by both
`mergeGamelogStatsIntoActiveGames` and the fallback branch of
`parseGameInfoFull`: find a summary player with the same lowercased name
and copy its kills/deaths/suicides over the slot's. -/
def mergeStatsIntoPlayer (summary : List LogPlayer) (p : Player) : Player :=
  match summary.find? (fun lp => jsToLower lp.name == jsToLower p.name) with
  | some lp =>
    { p with
        kills := lp.kills, deaths := lp.deaths, suicides := lp.suicides }
  | none => p

/-! ## `parseGameInfoFull` (opcode 3, scraper variant) -/

/-- `parseGameInfoFull(packet, g)` of the gamelog-merging tracker variant.
`summary` stands for the module-global `gamelogSummary.players` (the
`if (gamelogSummary && …)` guard is immaterial: an empty summary merges
nothing).  The `try`-body cannot throw: every read is guarded by the same
length checks the source performs. -/
def parseGameInfoFull (summary : List LogPlayer) (packet : List Nat)
    (g : GameRec) : GameRec :=
  if packet.length < 50 then g
  else
    let stride := if packet.length = 519 ∨ packet.length = 520 then 12 else 14
    let playerDataEnd := 7 + 12 * stride
    if packet.length < playerDataEnd then g
    else
      let players := (List.range 8).filterMap (fun i =>
        let blockStart := 7 + i * stride
        let name := readCString packet blockStart 9
        let connected := byteAt packet (blockStart + 9)
        if name ≠ "" ∧ connected > 0 then
          some { name := name
                 connected := connected
                 rank := byteAt packet (blockStart + 10)
                 color := if stride ≥ 14 then byteAt packet (blockStart + 11)
                          else 0
                 kills := 0, deaths := 0, suicides := 0 }
        else none)
      let ss := playerDataEnd
      let g1 :=
        if packet.length ≥ ss + 60 then
          let netgameName := readCString packet ss 16
          let missionTitle := readCString packet (ss + 16) 26
          let missionName := readCString packet (ss + 42) 9
          let levelNum := readU32 packet (ss + 51)
          let mode := byteAt packet (ss + 55)
          let status := byteAt packet (ss + 58)
          let maxPlayers := byteAt packet (ss + 60)
          let curPlayers := byteAt packet (ss + 61)
          { g with
            gameName := if netgameName ≠ "" then netgameName else g.gameName,
            mission := if missionTitle ≠ "" then missionTitle else g.mission,
            missionName := if missionName ≠ "" then missionName
                           else g.missionName,
            level := levelNum,
            gameMode := modeNameD mode g.gameMode,
            modeNum := mode,
            status := statusName status,
            statusNum := status,
            playerCount := if curPlayers > 0 then curPlayers
                           else g.playerCount,
            maxPlayers := if maxPlayers > 0 then maxPlayers
                          else g.maxPlayers }
        else g
      let players2 := players.map (mergeStatsIntoPlayer summary)
      let g2 :=
        if players2.length > 0 then
          { g1 with players := players2, playerCount := players2.length }
        else g1
      { g2 with detailed := true }

/-! ## Register-ACK and `handleGameInfoResponse` (opcodes 3 / 5) -/

/-- A scheduled outgoing register-ACK: single byte `[21]` to `ip:port`,
fired after `delayMs` milliseconds (`setTimeout` in the source). -/
structure AckSend where
  ip : String
  port : Nat
  delayMs : Nat
  deriving Repr, DecidableEq

/-- `sendRegisterAck(g)`: three ACKs at 0 / 25 / 50 ms to the REGISTER
source address. -/
def ackTriplet (g : GameRec) : List AckSend :=
  [⟨g.registerIp, g.registerPort, 0⟩,
   ⟨g.registerIp, g.registerPort, 25⟩,
   ⟨g.registerIp, g.registerPort, 50⟩]

/-- First record matching ip *and* port, in map insertion order. -/
def findGameExact : Registry → Rinfo → Option (String × GameRec)
  | [], _ => none
  | kv :: reg, r =>
    if kv.2.ip = r.address ∧ kv.2.port = r.port then some kv
    else findGameExact reg r

/-- First record matching the given ip, in map insertion order. -/
def findGameByIp : Registry → String → Option (String × GameRec)
  | [], _ => none
  | kv :: reg, a => if kv.2.ip = a then some kv else findGameByIp reg a

/-- The correlation search of `handleGameInfoResponse`: first record
matching ip *and* port, else first record matching ip alone. -/
def findGame (reg : Registry) (r : Rinfo) : Option (String × GameRec) :=
  match findGameExact reg r with
  | some kv => some kv
  | none => findGameByIp reg r.address

/-- `handleGameInfoResponse(packet, rinfo)`: correlate, decrement the
pending-request counter, parse (lite or full), promote to confirmed on
first response (dispatching the ACK triplet), refresh `lastSeen` and
`timestamp`.  `saveGameData` / WebSocket broadcast are I/O. -/
def handleGameInfoResponse (now : Nat) (nowIso : String)
    (summary : List LogPlayer) (packet : List Nat) (r : Rinfo)
    (reg : Registry) : Registry × List AckSend :=
  match findGame reg r with
  | none => (reg, [])
  | some (k, g0) =>
    let g1 := { g0 with pendingInfoReqs := g0.pendingInfoReqs - 1 }
    let opcode := byteAt packet 0
    if opcode = 5 ∧ packet.length = 73 then
      let g2 := parseGameInfoLite packet g1
      let g3 :=
        { g2 with
            confirmed := true, lastSeen := now,
            timestamp := nowIso, broadcasted := true }
      (mapSet reg k g3, if g2.confirmed then [] else ackTriplet g2)
    else if opcode = 3 then
      let g2 := parseGameInfoFull summary packet g1
      let g3 :=
        { g2 with
            confirmed := true, lastSeen := now,
            timestamp := nowIso, broadcasted := true }
      (mapSet reg k g3, if g2.confirmed then [] else ackTriplet g2)
    else
      (mapSet reg k g1, [])

/-! ## `handleVersionDeny` (opcode 1, length 9) -/

/-- The loop body of `handleVersionDeny`: walk the registry in insertion
order, set `netgameProto` on the first record whose ip matches, `break`. -/
def setProtoFirst (address : String) (proto : Nat) :
    Registry → Registry
  | [] => []
  | kv :: rest =>
    if kv.2.ip = address then
      (kv.1, { kv.2 with netgameProto := some proto }) :: rest
    else kv :: setProtoFirst address proto rest

/-- `handleVersionDeny(packet, rinfo)` (packet length 9, checked by the
dispatcher). -/
def handleVersionDeny (packet : List Nat) (r : Rinfo)
    (reg : Registry) : Registry :=
  setProtoFirst r.address (readU16 packet 7) reg

/-! ## `mergeGamelogStatsIntoActiveGames` -/

/-- `mergeGamelogStatsIntoActiveGames()`: for every *confirmed* game,
overwrite each slot's kills/deaths/suicides with the summary player of the
same lowercased name, when one exists.  `summary` is the players list of
the chosen summary (merged when remote clients exist, else local);
summary selection and the snapshot-file write are outside this step. -/
def mergeGamelogStatsIntoActiveGames (summary : List LogPlayer)
    (reg : Registry) : Registry :=
  if summary.isEmpty then reg
  else reg.map (fun kv =>
    if kv.2.confirmed then
      (kv.1, { kv.2 with
                 players :=
                   kv.2.players.map (mergeStatsIntoPlayer summary) })
    else kv)

/-! ## Event store of the firebase tracker variant (opcodes 31/32 etc.) -/

/-- `getUniquePlayerName(players, pnum)`: display name with an `" (N)"`
suffix when several slots share the same callsign. -/
def getUniquePlayerName (players : List Player) (pnum : Nat) : String :=
  match players.get? pnum with
  | none => s!"Player {pnum}"
  | some p =>
    let name := p.name
    let dupeIndices :=
      (players.enum.filter (fun q => q.2.name == name)).map (·.1)
    if dupeIndices.length ≤ 1 then name
    else
      let order := dupeIndices.indexOf pnum + 1
      s!"{name} ({order})"

/-- `WEAPON_NAMES` lookup (DXX-Redux weapon ids). -/
def weaponNameTable (weaponId : Nat) : Option String :=
  match weaponId with
  | 0 => some "Laser L1" | 1 => some "Laser L2" | 2 => some "Laser L3"
  | 3 => some "Laser L4" | 8 => some "Concussion Missile" | 9 => some "Flare"
  | 11 => some "Vulcan Cannon" | 12 => some "X-Spreadfire"
  | 13 => some "Plasma Cannon" | 14 => some "Fusion Cannon"
  | 15 => some "Homing Missile" | 16 => some "Proximity Bomb"
  | 17 => some "Smart Missile" | 18 => some "Mega Missile"
  | 19 => some "Smart Blob" | 20 => some "Spreadfire"
  | 21 => some "Mech Missile" | 22 => some "Mech Missile 2"
  | 23 => some "Silent Spreadfire" | 29 => some "Robot Smart Blob"
  | 30 => some "Super Laser L5" | 31 => some "Super Laser L6"
  | 32 => some "Gauss Cannon" | 33 => some "Helix Cannon"
  | 34 => some "Phoenix Cannon" | 35 => some "Omega Cannon"
  | 36 => some "Flash Missile" | 37 => some "Guided Missile"
  | 38 => some "Super Proximity Bomb" | 39 => some "Mercury Missile"
  | 40 => some "Earthshaker" | 47 => some "Smart Mine Blob"
  | 49 => some "Robot Smart Mine" | 51 => some "Designer Mine"
  | 53 => some "Robot Super Proximity" | 54 => some "Earthshaker Mega"
  | 58 => some "Robot Earthshaker"
  | _ => none

/-- `ENVIRONMENT_DEATHS` lookup (weapon_type 3 subcategories). -/
def environmentDeathTable (weaponId : Nat) : Option String :=
  match weaponId with
  | 0 => some "Wall Collision" | 1 => some "Lava" | 2 => some "Matcen"
  | _ => none

/-- `getWeaponName(weaponType, weaponId)`. -/
def getWeaponName (weaponType weaponId : Nat) : String :=
  if weaponType = 1 then "Robot"
  else if weaponType = 2 then "Collision"
  else if weaponType = 3 then (environmentDeathTable weaponId).getD "Environment"
  else (weaponNameTable weaponId).getD s!"Weapon {weaponId}"

/-- A kill-feed entry as built by `handleGamelogKill`.  The source also
derives a display string `time` by floating-point division of the
microsecond counter (`toFixed(1)`); the exact decoded microsecond value
kept here is what that display is computed from. -/
structure KillEv where
  gameTimeUs : Nat
  timestampIso : String
  killer : String
  killerNum : Nat
  killed : String
  killedNum : Nat
  weapon : String
  weaponType : Nat
  weaponId : Nat
  deriving Repr, DecidableEq

/-- A chat entry as built by `handleGamelogChat` (`from`/`player` carry the
same display name in the source). -/
structure ChatEv where
  gameTimeUs : Nat
  timestampIso : String
  player : String
  fromNum : Nat
  message : String
  deriving Repr, DecidableEq

/-- One element of a game's combined `timeline` buffer. -/
inductive TimelineEntry
  | kill (e : KillEv)
  | chat (e : ChatEv)
  deriving Repr, DecidableEq

/-- The per-match event store (`gameEvents` map value). -/
structure EventStore where
  killFeed : List KillEv := []
  chat : List ChatEv := []
  timeline : List TimelineEntry := []
  startTime : Nat := 0
  deriving Repr, DecidableEq

/-- The `gameEvents` map: `game.id → event store`. -/
abbrev EventsMap := List (String × EventStore)

def emptyStore (now : Nat) : EventStore :=
  { killFeed := [], chat := [], timeline := [], startTime := now }

/-- `players[i]` in-place mutation. -/
def modAt (l : List Player) (i : Nat) (f : Player → Player) : List Player :=
  match l.get? i with
  | some p => l.set i (f p)
  | none => l

/-- The stats update of `handleGamelogKill`: both slots must exist
(JS `if (killer && killed)`); a suicide bumps the killer's suicides and
deaths, otherwise killer kills and victim deaths. -/
def updateKillStats (players : List Player) (killerId killedId : Nat) :
    List Player :=
  if killerId < players.length ∧ killedId < players.length then
    if killerId = killedId then
      modAt players killerId (fun p =>
        { p with suicides := p.suicides + 1, deaths := p.deaths + 1 })
    else
      modAt (modAt players killerId (fun p => { p with kills := p.kills + 1 }))
        killedId (fun p => { p with deaths := p.deaths + 1 })
  else players

/-- `handleGamelogKill(packet, rinfo)` (opcode 31, ≥ 13 bytes): decode the
64-bit microsecond game time, slots and weapon; correlate by sender IP
alone (gamelog packets come from an ephemeral port); append to the match's
kill feed (front) and timeline (back) with their 100/500 caps; update the
matched game's player stats. -/
def handleGamelogKill (now : Nat) (nowIso : String) (packet : List Nat)
    (r : Rinfo) (reg : Registry) (ev : EventsMap) : Registry × EventsMap :=
  if packet.length < 13 then (reg, ev)
  else
    let gameTimeUs := readU32 packet 1 + 4294967296 * readU32 packet 5
    let killerId := byteAt packet 9
    let killedId := byteAt packet 10
    let weaponType := byteAt packet 11
    let weaponId := byteAt packet 12
    match findGameByIp reg r.address with
    | none => (reg, ev)
    | some (k, g) =>
      let ev1 := if (mapGet ev g.id).isSome then ev
                 else mapSet ev g.id (emptyStore now)
      let st := (mapGet ev1 g.id).getD (emptyStore now)
      let ke : KillEv :=
        { gameTimeUs := gameTimeUs, timestampIso := nowIso,
          killer := getUniquePlayerName g.players killerId,
          killerNum := killerId,
          killed := getUniquePlayerName g.players killedId,
          killedNum := killedId,
          weapon := getWeaponName weaponType weaponId,
          weaponType := weaponType, weaponId := weaponId }
      let kf1 := ke :: st.killFeed
      let tl1 := st.timeline ++ [TimelineEntry.kill ke]
      let kf2 := if kf1.length > 100 then kf1.dropLast else kf1
      let tl2 := if tl1.length > 500 then tl1.drop 1 else tl1
      let st1 := { st with killFeed := kf2, timeline := tl2 }
      let players1 := updateKillStats g.players killerId killedId
      (mapSet reg k { g with players := players1 }, mapSet ev1 g.id st1)

/-- The message decode of `handleGamelogChat`: bytes from offset 10,
UTF-8 decoded, NULs removed, trimmed (byte-per-char, faithful on the
ASCII payloads the game emits). -/
def parseChatMessage (packet : List Nat) : String :=
  jsTrim (String.mk (((packet.drop 10).filter (fun b => b != 0)).map
    Char.ofNat))

/-- `handleGamelogChat(packet, rinfo)` (opcode 32, ≥ 11 bytes): decode the
64-bit game time, sender slot and message; an empty decoded message is
dropped before any correlation; otherwise correlate by sender IP alone and
append to the chat (cap 200) and timeline (cap 500) buffers.  The registry
is never modified. -/
def handleGamelogChat (now : Nat) (nowIso : String) (packet : List Nat)
    (r : Rinfo) (reg : Registry) (ev : EventsMap) : EventsMap :=
  if packet.length < 11 then ev
  else
    let gameTimeUs := readU32 packet 1 + 4294967296 * readU32 packet 5
    let playerId := byteAt packet 9
    let message := parseChatMessage packet
    if message = "" then ev
    else
      match findGameByIp reg r.address with
      | none => ev
      | some (_, g) =>
        let ev1 := if (mapGet ev g.id).isSome then ev
                   else mapSet ev g.id (emptyStore now)
        let st := (mapGet ev1 g.id).getD (emptyStore now)
        let ce : ChatEv :=
          { gameTimeUs := gameTimeUs, timestampIso := nowIso,
            player := getUniquePlayerName g.players playerId,
            fromNum := playerId, message := message }
        let ch1 := st.chat ++ [ce]
        let tl1 := st.timeline ++ [TimelineEntry.chat ce]
        let ch2 := if ch1.length > 200 then ch1.drop 1 else ch1
        let tl2 := if tl1.length > 500 then tl1.drop 1 else tl1
        mapSet ev1 g.id { st with chat := ch2, timeline := tl2 }

/-! ## HTTP read API router (firebase tracker variant) -/

def hexDigitVal (c : Char) : Option Nat :=
  if 48 ≤ c.toNat ∧ c.toNat ≤ 57 then some (c.toNat - 48)
  else if 65 ≤ c.toNat ∧ c.toNat ≤ 70 then some (c.toNat - 55)
  else if 97 ≤ c.toNat ∧ c.toNat ≤ 102 then some (c.toNat - 87)
  else none

/-- `decodeURIComponent` on the escapes the tracker's match keys use
(single-byte sequences; a malformed escape makes the JS builtin throw
`URIError`, modelled by `none`). -/
def percentDecodeChars : List Char → Option (List Char)
  | [] => some []
  | '%' :: a :: b :: rest =>
    match hexDigitVal a, hexDigitVal b with
    | some x, some y =>
      (percentDecodeChars rest).map (fun cs => Char.ofNat (16 * x + y) :: cs)
    | _, _ => none
  | '%' :: _ => none
  | c :: rest => (percentDecodeChars rest).map (fun cs => c :: cs)

def percentDecode (s : String) : Option String :=
  (percentDecodeChars s.data).map String.mk

/-- The routing outcome of the HTTPS API server.  Firebase-backed routes
carry their raw input (the Firestore query and its status are external
I/O); `decodeError` models the `URIError` thrown by `decodeURIComponent`
on a malformed escape. -/
inductive TrackerResp
  | preflight
  | statusOk (activeGames : Nat)
  | events (gameId : String) (store : Option EventStore)
  | firebaseGames (rawUrl : String)
  | firebaseGame (gameId : String)
  | firebaseCount
  | decodeError
  | notFound
  deriving Repr, DecidableEq

/-- The JSON body of the `/api/events/{match-key}` response:
`{gameId, killFeed, chat, timeline, startTime}`. -/
structure EventsBody where
  gameId : String
  killFeed : List KillEv
  chat : List ChatEv
  timeline : List TimelineEntry
  startTime : Option Nat
  deriving Repr, DecidableEq

/-- Rendering of the events route: the stored buffers, or the same shape
with empty arrays and a `null` start time when the key is unknown. -/
def eventsResponseBody (gameId : String) (store : Option EventStore) :
    EventsBody :=
  match store with
  | some es => ⟨gameId, es.killFeed, es.chat, es.timeline, some es.startTime⟩
  | none => ⟨gameId, [], [], [], none⟩

/-- HTTP status of a routing outcome.  Firebase routes answer 200 or 500
depending on the external Firestore call (`0` marks "externally
determined"); `decodeError` aborts the response. -/
def respStatus : TrackerResp → Nat
  | .preflight => 204
  | .statusOk _ => 200
  | .events _ _ => 200
  | .firebaseGames _ => 0
  | .firebaseGame _ => 0
  | .firebaseCount => 0
  | .decodeError => 0
  | .notFound => 404

/-- The request router of `startHTTPServer` (firebase tracker variant):
OPTIONS preflight, `/api/status`, `/api/events/:gameId`, the three
firebase read routes, then 404. -/
def routeRequest (method url : String) (numGames : Nat) (ev : EventsMap) :
    TrackerResp :=
  if method = "OPTIONS" then .preflight
  else if method = "GET" ∧ url = "/api/status" then .statusOk numGames
  else if method = "GET" ∧ jsStartsWith url "/api/events/" then
    let urlPath := upToQuery url
    match percentDecode (strDropChars urlPath 12) with
    | some gameId => .events gameId (mapGet ev gameId)
    | none => .decodeError
  else if method = "GET" ∧ jsStartsWith url "/api/firebase/games" then
    .firebaseGames url
  else if method = "GET" ∧ jsStartsWith url "/api/firebase/game/" then
    match percentDecode (strDropChars (upToQuery url) 19) with
    | some gameId => .firebaseGame gameId
    | none => .decodeError
  else if method = "GET" ∧ url = "/api/firebase/count" then .firebaseCount
  else .notFound

/-! ## Gamelog upload endpoint and event merge (gamelog tracker variant) -/

/-- A parsed textual-gamelog event as the tracker consumes it: the
`gamelog-parser` module (external, see header) yields objects carrying a
`type` tag, an absolute `timestamp` (`Date`, here its millisecond value,
`none` when absent) and the participant display names used for
deduplication.  Further parser fields (raw message, weapon, …) are not
inspected by the code modelled here. -/
structure TLEvent where
  ts : Option Nat := none
  type : String := ""
  killer : Option String := none
  victim : Option String := none
  player : Option String := none
  deriving Repr, DecidableEq

/-- Modelled from the spec: the gamelog text parser classifies lines that
match no known pattern as `Unknown` (`EVENT.UNKNOWN` of the absent
`gamelog-parser.js`); the tag's concrete value is opaque and nothing below
depends on it. -/
def EVENT_UNKNOWN : String := "unknown"

/-- One uploader's stored stream (`clientGamelogs` map value). -/
structure ClientLog where
  events : List TLEvent
  raw : String
  uploadedAt : String
  deriving Repr, DecidableEq

/-- JS truthiness of an optional string field (`undefined`/`""` falsy). -/
def jsTruthyStr : Option String → Bool
  | none => false
  | some s => s != ""

/-- Outcome of `POST /api/gamelog`. -/
inductive UploadResult
  | badRequest (error : String)
  | okReplace (eventsReceived totalClients : Nat)
  deriving Repr, DecidableEq

/-- The `POST /api/gamelog` body handler (after `JSON.parse`): reject with
400 when either field is missing **or falsy**; otherwise parse the content
with the player's name bound as local identity, keep the non-`Unknown`
events, and replace this player's stored stream.  `parse` is the external
`parseGamelogContent(content, {localPlayer})` already specialised to the
uploader (header note); re-merging and the HTTP response write are outside
this state transition. -/
def handleGamelogUpload (parse : String → List TLEvent)
    (playerName content : Option String) (uploadedAt : String)
    (logs : List (String × ClientLog)) :
    UploadResult × List (String × ClientLog) :=
  if ¬ jsTruthyStr playerName ∨ ¬ jsTruthyStr content then
    (.badRequest "Missing playerName or content", logs)
  else
    let pn := playerName.getD ""
    let ct := content.getD ""
    let meaningful := (parse ct).filter (fun e => e.type != EVENT_UNKNOWN)
    let logs1 := mapSet logs pn ⟨meaningful, ct, uploadedAt⟩
    (.okReplace meaningful.length (logs1.length + 1), logs1)

/-! ## Merged gamelog timeline: dedup + sort (`getMergedGamelogSummary`) -/

/-- `ev.timestamp ? ev.timestamp.getTime() : 0`. -/
def evTs (e : TLEvent) : Nat := e.ts.getD 0

/-- The dedup key string
`` `${ts}|${ev.type}|${ev.killer||''}|${ev.victim||''}|${ev.player||''}` ``. -/
def dedupKey (e : TLEvent) : String :=
  toString (evTs e) ++ "|" ++ e.type ++ "|" ++ e.killer.getD "" ++ "|"
    ++ e.victim.getD "" ++ "|" ++ e.player.getD ""

/-- The dedup loop: keep the first event of each key, tracking `seen`. -/
def dedupAux : List TLEvent → List String → List TLEvent
  | [], _ => []
  | e :: rest, seen =>
    if dedupKey e ∈ seen then dedupAux rest seen
    else e :: dedupAux rest (dedupKey e :: seen)

def dedupEvents (l : List TLEvent) : List TLEvent := dedupAux l []

/-- The `seen` set after the dedup loop has consumed `l`. -/
def seenAfter : List TLEvent → List String → List String
  | [], seen => seen
  | e :: rest, seen =>
    if dedupKey e ∈ seen then seenAfter rest seen
    else seenAfter rest (dedupKey e :: seen)

/-- Stable ordered insert by timestamp (ascending). -/
def insertTs (e : TLEvent) : List TLEvent → List TLEvent
  | [] => [e]
  | x :: xs => if evTs e < evTs x then e :: x :: xs else x :: insertTs e xs

/-- Stable sort by timestamp: the model of the source's
`deduped.sort((a, b) => ta - tb)` (V8's `Array.prototype.sort` is
specified stable). -/
def sortByTs (l : List TLEvent) : List TLEvent :=
  l.foldl (fun acc e => insertTs e acc) []

/-- The merge core of `getMergedGamelogSummary`: local watcher events
first, then each uploader's stream in map order; dedup by key keeping first
occurrences; sort ascending by timestamp.  (The subsequent `summarize`
call over this list is the external parser module.) -/
def getMergedTimeline (localEvents : List TLEvent)
    (clientEvents : List (List TLEvent)) : List TLEvent :=
  sortByTs (dedupEvents (localEvents ++ clientEvents.flatten))

/-- Sequential processing of a list of game-info responses (opcodes 3/5)
through `handleGameInfoResponse`, accumulating every register-ACK
dispatched along the way. -/
def processInfoPackets (now : Nat) (nowIso : String)
    (summary : List LogPlayer) :
    Registry → List (List Nat × Rinfo) → Registry × List AckSend
  | reg, [] => (reg, [])
  | reg, (p, r) :: rest =>
    let out := handleGameInfoResponse now nowIso summary p r reg
    let outRest := processInfoPackets now nowIso summary out.1 rest
    (outRest.1, out.2 ++ outRest.2)


/-! ## Concrete test vectors (used by witnesses and counterexamples) -/

/-- Textual summary with a single player `Alice`, 3 kills / 1 death. -/
def sampleSummary : List LogPlayer :=
  [{ name := "Alice", kills := 3, deaths := 1, suicides := 0 }]

/-- A slot as a full-info packet would have populated it. -/
def sampleSlot : Player :=
  { name := "alice", kills := 5, deaths := 2, suicides := 1 }

/-- A confirmed match holding `sampleSlot`. -/
def sampleGame : GameRec :=
  { freshGameRec with confirmed := true, players := [sampleSlot] }

/-- A one-match registry. -/
def sampleReg : Registry := [("1.2.3.4:5000", sampleGame)]


/-- A pending (unconfirmed) record as `handleRegister` leaves it after a
REGISTER from `7.7.7.7:60000` announcing game port 5000 and game-id 1,
with one lite probe outstanding. -/
def pendingRec : GameRec :=
  { freshGameRec with
      id := "7.7.7.7:5000", ip := "7.7.7.7", port := 5000,
      gameId := 1, registerIp := "7.7.7.7", registerPort := 60000,
      pendingInfoReqs := 1 }

/-- Registry holding only `pendingRec`. -/
def pendingReg : Registry := [("7.7.7.7:5000", pendingRec)]

/-- A well-formed 73-byte lite-info whose embedded game-id is 2 —
mismatching `pendingRec.gameId = 1`. -/
def liteMismatchPkt : List Nat :=
  [5, 0, 0, 0, 0, 0, 0, 2, 0, 0, 0] ++ List.replicate 62 0


/-- The 15-byte REGISTER of scenario S1: D1X v1.3.2, game port 5000,
game-id `0x04030201`, sent from `203.0.113.7:55000`. -/
def regPkt15 : List Nat := [0, 0, 1, 136, 19, 1, 2, 3, 4, 1, 0, 3, 0, 2, 0]

/-- A registry whose record under `203.0.113.7:5000` carries a different
game-id (99) and confirmed state, to be reset by a new REGISTER. -/
def oldIdReg : Registry :=
  [("203.0.113.7:5000",
    { freshGameRec with
        gameId := 99, confirmed := true, gameName := "Old game",
        players := [sampleSlot] })]


/-- A 13-byte GAMELOG-KILL: game time 1 000 000 µs, killer slot 0,
victim slot 1, weapon type 0, weapon id 13 (Plasma Cannon). -/
def killPkt13 : List Nat := [31, 64, 66, 15, 0, 0, 0, 0, 0, 0, 1, 0, 13]

/-- A 12-byte GAMELOG-CHAT from slot 2 whose message decodes to "hi". -/
def chatPktHi : List Nat := [32, 0, 0, 0, 0, 0, 0, 0, 0, 2, 104, 105]


/-- A 73-byte lite-info whose embedded game-id `0x04030201` matches the
S1 REGISTER's, with player count 2. -/
def liteMatchPkt : List Nat :=
  [5, 0, 0, 0, 0, 0, 0, 1, 2, 3, 4] ++ List.replicate 59 0 ++ [2, 0, 0]

/-! # Lemmas about the map model -/

theorem mapGet_mapSet_self {β : Type} (m : List (String × β)) (k : String)
    (v : β) : mapGet (mapSet m k v) k = some v := by
  induction m with
  | nil => simp [mapSet, mapGet]
  | cons kv m ih =>
    by_cases h : kv.1 = k
    · simp [mapSet, mapGet, h]
    · simp [mapSet, mapGet, h, ih]

theorem mapGet_mapDelete_self {β : Type} (m : List (String × β))
    (k : String) : mapGet (mapDelete m k) k = none := by
  induction m with
  | nil => simp [mapDelete, mapGet]
  | cons kv m ih =>
    by_cases h : kv.1 = k
    · simp [mapDelete, h, ih]
    · simp [mapDelete, mapGet, h, ih]

theorem mem_mapSet {β : Type} (m : List (String × β)) (k : String) (v : β)
    (kv : String × β) : kv ∈ mapSet m k v → kv = (k, v) ∨ kv ∈ m := by
  induction m with
  | nil => intro h; simpa [mapSet] using h
  | cons kv0 m ih =>
    intro h
    by_cases h0 : kv0.1 = k
    · simp only [mapSet, if_pos h0] at h
      rcases List.mem_cons.mp h with h | h
      · exact Or.inl h
      · exact Or.inr (List.mem_cons_of_mem _ h)
    · simp only [mapSet, if_neg h0] at h
      rcases List.mem_cons.mp h with h | h
      · exact Or.inr (h ▸ List.mem_cons_self _ _)
      · rcases ih h with h | h
        · exact Or.inl h
        · exact Or.inr (List.mem_cons_of_mem _ h)

theorem keys_mapSet {β : Type} (m : List (String × β)) (k : String) (v : β) :
    (mapSet m k v).map Prod.fst = m.map Prod.fst
      ∨ (mapSet m k v).map Prod.fst = m.map Prod.fst ++ [k] := by
  induction m with
  | nil => simp [mapSet]
  | cons kv m ih =>
    by_cases h : kv.1 = k
    · left; simp [mapSet, h]
    · rcases ih with ih | ih
      · left; simp [mapSet, h, ih]
      · right; simp [mapSet, h, ih]

theorem nodup_keys_mapSet {β : Type} (m : List (String × β)) (k : String)
    (v : β) : (m.map Prod.fst).Nodup → mapGet m k = none →
    ((mapSet m k v).map Prod.fst).Nodup := by
  induction m with
  | nil => intro _ _; simp [mapSet]
  | cons kv m ih =>
    intro hm hk
    by_cases h : kv.1 = k
    · simp [mapGet, h] at hk
    · simp only [mapGet, if_neg h] at hk
      simp only [List.map_cons, List.nodup_cons] at hm
      simp only [mapSet, if_neg h, List.map_cons, List.nodup_cons]
      refine ⟨?_, ih hm.2 hk⟩
      rcases keys_mapSet m k v with he | he
      · rw [he]; exact hm.1
      · rw [he]
        intro hmem
        rcases List.mem_append.mp hmem with hmem | hmem
        · exact hm.1 hmem
        · simp at hmem; exact h hmem

theorem mapDelete_subset {β : Type} (m : List (String × β)) (k : String) :
    mapDelete m k ⊆ m := by
  induction m with
  | nil => simp [mapDelete]
  | cons kv m ih =>
    by_cases h : kv.1 = k
    · simp only [mapDelete, if_pos h]
      exact ih.trans (List.subset_cons_self _ _)
    · simp only [mapDelete, if_neg h]
      exact List.cons_subset_cons kv ih

theorem nodup_keys_mapDelete {β : Type} (m : List (String × β))
    (k : String) : (m.map Prod.fst).Nodup →
    ((mapDelete m k).map Prod.fst).Nodup := by
  induction m with
  | nil => intro _; simp [mapDelete]
  | cons kv m ih =>
    intro hm
    simp only [List.map_cons, List.nodup_cons] at hm
    by_cases h : kv.1 = k
    · simp only [mapDelete, if_pos h]; exact ih hm.2
    · simp only [mapDelete, if_neg h, List.map_cons, List.nodup_cons]
      refine ⟨?_, ih hm.2⟩
      intro hmem
      rcases List.mem_map.mp hmem with ⟨x, hx, hfst⟩
      exact hm.1 (List.mem_map.mpr ⟨x, mapDelete_subset m k hx, hfst⟩)

/-! # Claim theorems -/

/-- C9: a `POST /api/gamelog` body with both fields present but
`content` equal to the empty string is rejected with 400
`{error: "Missing playerName or content"}` and commits no events — the
stored client-gamelog map is returned unchanged, whatever the parser
would have produced.  Presence of the field is not sufficient; the
handler tests JS truthiness of the value. -/
theorem gamelogUpload_emptyContent_rejected
    (parse : String → List TLEvent) (pn uploadedAt : String)
    (logs : List (String × ClientLog)) :
    handleGamelogUpload parse (some pn) (some "") uploadedAt logs
      = (.badRequest "Missing playerName or content", logs) := by
  simp [handleGamelogUpload, jsTruthyStr]

/-- C10: a successfully decoded 73-byte lite-info whose embedded game-id
matches the record's replaces the record's player list wholesale by
`players`-many placeholder entries `"Player 1" … "Player N"`, each with
kills = deaths = suicides = 0.  The record `g` is universally
quantified, so any callsigns, connected flags or stats a previous
full-info packet had installed are discarded by the lite apply. -/
theorem liteInfo_replaces_players_with_placeholders
    (packet : List Nat) (g : GameRec)
    (_hlen : packet.length = 73)
    (hmatch : readU32 packet 7 = g.gameId) :
    (parseGameInfoLite packet g).players
      = (List.range (byteAt packet 70)).map (fun i =>
          { name := s!"Player {i + 1}", kills := 0, deaths := 0,
            suicides := 0 }) := by
  unfold parseGameInfoLite
  simp [hmatch]

/-- C10 witness: a concrete 73-byte lite-info with embedded game-id 1 and
player count 2, applied to a record that already holds a real
full-info-derived slot, yields exactly the two fresh placeholders. -/
theorem liteInfo_replaces_players_witness :
    (([5, 0, 0, 0, 0, 0, 0, 1, 0, 0, 0] ++ List.replicate 59 0
        ++ [2, 0, 0]).length = 73
      ∧ readU32 ([5, 0, 0, 0, 0, 0, 0, 1, 0, 0, 0] ++ List.replicate 59 0
        ++ [2, 0, 0]) 7
        = ({ freshGameRec with gameId := 1, confirmed := true, players := [{ name := "cody", connected := 1, kills := 9, deaths := 4, suicides := 2 }] } : GameRec).gameId)
    ∧ (parseGameInfoLite
        ([5, 0, 0, 0, 0, 0, 0, 1, 0, 0, 0] ++ List.replicate 59 0
          ++ [2, 0, 0])
        { freshGameRec with gameId := 1, confirmed := true, players := [{ name := "cody", connected := 1, kills := 9, deaths := 4, suicides := 2 }] }).players
      = (List.range (byteAt ([5, 0, 0, 0, 0, 0, 0, 1, 0, 0, 0]
          ++ List.replicate 59 0 ++ [2, 0, 0]) 70)).map (fun i =>
          { name := s!"Player {i + 1}", kills := 0, deaths := 0,
            suicides := 0 }) :=
  ⟨⟨by decide, by decide⟩,
   liteInfo_replaces_players_with_placeholders _ _ (by decide) (by decide)⟩

/-- C2 counterexample: the aggregator does **not** take the maximum of
the UDP-full, UDP-event-count and textual-stream values, and it can
decrease an already-merged value.  Concretely: a confirmed match whose
slot `alice` carries kills = 5 / deaths = 2 / suicides = 1 (as parsed
from a full-info packet) is merged with a textual summary reporting
3 / 1 / 0 for `Alice` (case-insensitive match); the slot ends at
3 / 1 / 0 — a plain overwrite, kills dropping from 5 to 3, where the
claimed `max` would be ≥ 5. -/
theorem mergeStats_overwrites_counterexample :
    (mergeGamelogStatsIntoActiveGames
        [{ name := "Alice", kills := 3, deaths := 1, suicides := 0 }]
        [("1.2.3.4:5000",
          { freshGameRec with confirmed := true, players := [{ name := "alice", kills := 5, deaths := 2, suicides := 1 }] })]).map
      (fun kv => kv.2.players.map (fun p => (p.kills, p.deaths, p.suicides)))
      = [[((3 : Int), (1 : Int), (0 : Int))]]
    ∧ ¬ ((3 : Int) ≥ 5) := by
  exact ⟨by decide, by decide⟩

/-- C2 (amended): after the aggregator merges the textual summary into
the active games, each slot of a confirmed match whose name matches a
summary player case-insensitively carries exactly that summary player's
kills/deaths/suicides (a plain overwrite — not a max, and possibly lower
than the previous value); slots without a summary match are unchanged. -/
theorem mergeStats_overwrite_semantics
    (summary : List LogPlayer) (reg : Registry) (k : String) (g : GameRec)
    (i : Nat) (p : Player) (lp : LogPlayer)
    (hne : summary ≠ [])
    (hg : mapGet reg k = some g) (hc : g.confirmed = true)
    (hp : g.players.get? i = some p)
    (hlp : summary.find? (fun l => jsToLower l.name == jsToLower p.name)
      = some lp) :
    (∃ g', mapGet (mergeGamelogStatsIntoActiveGames summary reg) k = some g'
      ∧ g'.players.get? i
        = some { p with kills := lp.kills, deaths := lp.deaths, suicides := lp.suicides })
    ∧ (∀ q, summary.find? (fun l => jsToLower l.name == jsToLower q.name)
        = none → mergeStatsIntoPlayer summary q = q) := by
  constructor
  · refine ⟨{ g with players := g.players.map (mergeStatsIntoPlayer summary) },
      ?_, ?_⟩
    · unfold mergeGamelogStatsIntoActiveGames
      rw [if_neg (by simpa [List.isEmpty_iff] using hne)]
      induction reg with
      | nil => simp [mapGet] at hg
      | cons kv reg ih =>
        obtain ⟨a, b⟩ := kv
        by_cases hk : a = k
        · subst hk
          simp only [mapGet, if_pos, Option.some.injEq, reduceIte] at hg
          subst hg
          simp [mapGet, hc]
        · simp only [mapGet, if_neg hk] at hg
          simp only [List.map_cons]
          by_cases hcv : b.confirmed
          · simp only [if_pos hcv, mapGet, if_neg hk]
            exact ih hg
          · simp only [if_neg hcv, mapGet, if_neg hk]
            exact ih hg
    · rw [List.get?_eq_getElem?, List.getElem?_map, ← List.get?_eq_getElem? g.players, hp]
      simp [mergeStatsIntoPlayer, hlp]
  · intro q hq
    simp [mergeStatsIntoPlayer, hq]

/-- C2 witness for the amended statement: one confirmed match, slot 0
named `alice` with 5/2/1, textual summary `Alice` 3/1/0. -/
theorem mergeStats_overwrite_semantics_witness :
    (sampleSummary ≠ [] ∧ mapGet sampleReg "1.2.3.4:5000" = some sampleGame
      ∧ sampleGame.confirmed = true
      ∧ sampleGame.players.get? 0 = some sampleSlot
      ∧ sampleSummary.find?
          (fun l => jsToLower l.name == jsToLower sampleSlot.name)
          = some { name := "Alice", kills := 3, deaths := 1, suicides := 0 })
    ∧ ((∃ g', mapGet (mergeGamelogStatsIntoActiveGames sampleSummary
            sampleReg) "1.2.3.4:5000" = some g'
        ∧ g'.players.get? 0
          = some { sampleSlot with kills := (3 : Int), deaths := (1 : Int), suicides := (0 : Int) })
      ∧ (∀ q, sampleSummary.find?
            (fun l => jsToLower l.name == jsToLower q.name) = none →
          mergeStatsIntoPlayer sampleSummary q = q)) :=
  ⟨⟨by decide, by decide, by decide, by decide, by decide⟩,
   mergeStats_overwrite_semantics sampleSummary sampleReg "1.2.3.4:5000"
     sampleGame 0 sampleSlot
     { name := "Alice", kills := 3, deaths := 1, suicides := 0 }
     (by decide) (by decide) (by decide) (by decide) (by decide)⟩

/-- C4 counterexample: a VERSION-DENY (proto 7650, bytes `[226, 29]`)
from `9.9.9.9` against a registry holding two records on that IP — the
first with `netgameProto` already known (`some 5`), the second still
unknown — leaves `[some 7650, none]`: the loop `break`s after the
*first* ip match, overwriting its already-known proto, and never reaches
the second record whose proto was still unknown.  The claim requires
`[some 5, some 7650]`. -/
theorem versionDeny_counterexample :
    (handleVersionDeny [1, 0, 0, 0, 0, 0, 0, 226, 29] ⟨"9.9.9.9", 5000⟩
        [("9.9.9.9:2000",
          { freshGameRec with ip := "9.9.9.9", netgameProto := some 5 }),
         ("9.9.9.9:3000",
          { freshGameRec with ip := "9.9.9.9", netgameProto := none })]).map
      (fun kv => kv.2.netgameProto) = [some 7650, none] := by
  decide

/-- C4 (amended): handling a VERSION-DENY sets `netgameProto` to the
packet's proto on exactly the **first** registry record (in map insertion
order) whose host IP equals the source IP — overwriting any previously
known value — and touches no other record. -/
theorem versionDeny_sets_first_ip_match
    (packet : List Nat) (r : Rinfo) (pre post : Registry) (k : String)
    (g : GameRec)
    (hpre : ∀ kv ∈ pre, kv.2.ip ≠ r.address)
    (hip : g.ip = r.address) :
    handleVersionDeny packet r (pre ++ (k, g) :: post)
      = pre ++ (k, { g with netgameProto := some (readU16 packet 7) })
          :: post := by
  unfold handleVersionDeny
  induction pre with
  | nil => simp [setProtoFirst, hip]
  | cons kv rest ih =>
    simp only [List.cons_append, setProtoFirst,
      if_neg (hpre kv (List.mem_cons_self _ _))]
    exact congrArg (kv :: ·)
      (ih (fun kv0 h0 => hpre kv0 (List.mem_cons_of_mem _ h0)))

/-- C4 witness: source IP `9.9.9.9`, one non-matching record before the
match. -/
theorem versionDeny_sets_first_ip_match_witness :
    ((∀ kv ∈ [("8.8.8.8:2000",
        { freshGameRec with ip := "8.8.8.8" })], kv.2.ip ≠ "9.9.9.9")
      ∧ ({ freshGameRec with ip := "9.9.9.9" } : GameRec).ip = "9.9.9.9")
    ∧ handleVersionDeny [1, 0, 0, 0, 0, 0, 0, 226, 29] ⟨"9.9.9.9", 5000⟩
        ([("8.8.8.8:2000", { freshGameRec with ip := "8.8.8.8" })]
          ++ [("9.9.9.9:3000", { freshGameRec with ip := "9.9.9.9" })])
      = [("8.8.8.8:2000", { freshGameRec with ip := "8.8.8.8" })]
        ++ [("9.9.9.9:3000",
             { ({ freshGameRec with ip := "9.9.9.9" } : GameRec) with
               netgameProto := some (readU16 [1, 0, 0, 0, 0, 0, 0, 226, 29]
                 7) })] :=
  ⟨⟨by decide, by decide⟩,
   versionDeny_sets_first_ip_match _ _ _ [] _ _ (by decide) (by decide)⟩

/-! # Game-id mismatch on lite-info (C1) -/

theorem parseGameInfoLite_mismatch (packet : List Nat) (g : GameRec)
    (hid : g.gameId ≠ 0) (hmis : readU32 packet 7 ≠ g.gameId) :
    parseGameInfoLite packet g = g := by
  unfold parseGameInfoLite
  rw [if_pos ⟨hid, hmis⟩]

/-- C1 counterexample: a 73-byte lite-info with embedded game-id 2,
arriving for the pending record with game-id 1 from the record's own
ip:port, leaves the record **touched**: `pendingInfoReqs` drops 1 → 0,
`confirmed` flips to `true`, `lastSeen` is refreshed — and the
register-ACK triplet **is** dispatched to the register source address.
The claim requires the record to be entirely untouched and no ACK to be
sent as a consequence of this packet. -/
theorem liteInfo_mismatch_counterexample :
    ((handleGameInfoResponse 2000 "t" [] liteMismatchPkt ⟨"7.7.7.7", 5000⟩
        pendingReg).1.map
      (fun kv => (kv.2.confirmed, kv.2.pendingInfoReqs, kv.2.lastSeen))
      = [(true, 0, 2000)])
    ∧ (handleGameInfoResponse 2000 "t" [] liteMismatchPkt ⟨"7.7.7.7", 5000⟩
        pendingReg).2
      = [⟨"7.7.7.7", 60000, 0⟩, ⟨"7.7.7.7", 60000, 25⟩,
         ⟨"7.7.7.7", 60000, 50⟩] := by
  exact ⟨by decide, by decide⟩

/-- C1 (amended): on a lite-info whose embedded game-id differs from the
record's (nonzero) game-id, the lite **payload** is dropped — the parse
step returns the record unchanged, so game name, mission, level, player
list, game-id etc. keep their previous values — but the handler still
decrements the pending-request count, marks the record confirmed
(dispatching the register-ACK triplet exactly when the record was not
yet confirmed) and refreshes `lastSeen`/`timestamp`. -/
theorem liteInfo_mismatch_drops_payload_only
    (now : Nat) (iso : String) (summary : List LogPlayer)
    (packet : List Nat) (r : Rinfo) (reg : Registry) (k : String)
    (g : GameRec)
    (hfind : findGame reg r = some (k, g))
    (hop : byteAt packet 0 = 5) (hlen : packet.length = 73)
    (hid : g.gameId ≠ 0) (hmis : readU32 packet 7 ≠ g.gameId) :
    parseGameInfoLite packet g = g
    ∧ handleGameInfoResponse now iso summary packet r reg
      = (mapSet reg k
          { g with pendingInfoReqs := g.pendingInfoReqs - 1, confirmed := true, lastSeen := now, timestamp := iso, broadcasted := true },
         if g.confirmed then [] else ackTriplet g) := by
  refine ⟨parseGameInfoLite_mismatch packet g hid hmis, ?_⟩
  unfold handleGameInfoResponse
  rw [hfind]
  simp only [hop, hlen, and_self, if_true, reduceIte]
  rw [parseGameInfoLite_mismatch packet
    { g with pendingInfoReqs := g.pendingInfoReqs - 1 } hid hmis]
  rfl

/-- C1 witness for the amended statement: the concrete mismatching
lite-info against the pending record. -/
theorem liteInfo_mismatch_drops_payload_only_witness :
    (findGame pendingReg ⟨"7.7.7.7", 5000⟩ = some ("7.7.7.7:5000", pendingRec)
      ∧ byteAt liteMismatchPkt 0 = 5 ∧ liteMismatchPkt.length = 73
      ∧ pendingRec.gameId ≠ 0
      ∧ readU32 liteMismatchPkt 7 ≠ pendingRec.gameId)
    ∧ (parseGameInfoLite liteMismatchPkt pendingRec = pendingRec
      ∧ handleGameInfoResponse 2000 "t" [] liteMismatchPkt ⟨"7.7.7.7", 5000⟩
          pendingReg
        = (mapSet pendingReg "7.7.7.7:5000"
            { pendingRec with pendingInfoReqs := pendingRec.pendingInfoReqs - 1, confirmed := true, lastSeen := 2000, timestamp := "t", broadcasted := true },
           if pendingRec.confirmed then [] else ackTriplet pendingRec)) :=
  ⟨⟨by decide, by decide, by decide, by decide, by decide⟩,
   liteInfo_mismatch_drops_payload_only 2000 "t" [] liteMismatchPkt
     ⟨"7.7.7.7", 5000⟩ pendingReg "7.7.7.7:5000" pendingRec
     (by decide) (by decide) (by decide) (by decide) (by decide)⟩

/-! # REGISTER with changed game-id (C5) -/

theorem nodup_keys_mapSet_any {β : Type} (m : List (String × β))
    (k : String) (v : β) : (m.map Prod.fst).Nodup →
    ((mapSet m k v).map Prod.fst).Nodup := by
  induction m with
  | nil => intro _; simp [mapSet]
  | cons kv m ih =>
    intro hm
    simp only [List.map_cons, List.nodup_cons] at hm
    by_cases h : kv.1 = k
    · simp only [mapSet, if_pos h, List.map_cons, List.nodup_cons]
      exact ⟨h ▸ hm.1, hm.2⟩
    · simp only [mapSet, if_neg h, List.map_cons, List.nodup_cons]
      refine ⟨?_, ih hm.2⟩
      rcases keys_mapSet m k v with he | he
      · rw [he]; exact hm.1
      · rw [he]
        intro hmem
        rcases List.mem_append.mp hmem with hmem | hmem
        · exact hm.1 hmem
        · simp at hmem; exact h hmem

theorem handleRegister_nodup_keys (now : Nat) (packet : List Nat)
    (r : Rinfo) (reg : Registry) :
    (reg.map Prod.fst).Nodup →
    ((handleRegister now packet r reg).map Prod.fst).Nodup := by
  intro hreg
  unfold handleRegister
  by_cases hlen : packet.length = 14 ∨ packet.length = 15
  · rw [if_pos hlen]
    by_cases hport : readU16 packet 3 < 1024
    · rw [if_pos hport]; exact hreg
    · rw [if_neg hport]
      cases hget : mapGet reg (r.address ++ ":" ++ toString (readU16 packet 3)) with
      | none =>
        simp only [hget]
        exact nodup_keys_mapSet_any _ _ _ hreg
      | some ex =>
        simp only [hget]
        by_cases hid : ex.gameId ≠ readU32 packet 5
        · rw [if_pos hid]
          exact nodup_keys_mapSet_any _ _ _ (nodup_keys_mapDelete _ _ hreg)
        · rw [if_neg hid]
          exact nodup_keys_mapSet_any _ _ _ hreg
  · rw [if_neg hlen]; exact hreg

/-- C5: a REGISTER arriving on a match key whose record carries a
different game-id first deletes the prior record, then inserts a record
built from scratch: the result is exactly delete-then-set with the fresh
pending literal — new game-id, `confirmed = false`, empty player list,
`"Pending…"` name, nothing inherited from the prior record.  Moreover
`handleRegister` preserves key-uniqueness of the registry on every input,
so the registry always holds at most one record per match key. -/
theorem register_gameId_change_resets
    (now : Nat) (packet : List Nat) (r : Rinfo) (reg : Registry)
    (ex : GameRec)
    (hlen : packet.length = 14 ∨ packet.length = 15)
    (hport : ¬ readU16 packet 3 < 1024)
    (hex : mapGet reg (r.address ++ ":" ++ toString (readU16 packet 3))
      = some ex)
    (hid : ex.gameId ≠ readU32 packet 5) :
    (handleRegister now packet r reg
      = mapSet
          (mapDelete reg (r.address ++ ":" ++ toString (readU16 packet 3)))
          (r.address ++ ":" ++ toString (readU16 packet 3))
          { freshGameRec with
              id := r.address ++ ":" ++ toString (readU16 packet 3),
              ip := r.address, port := readU16 packet 3,
              gameId := readU32 packet 5, version := byteAt packet 2,
              releaseMajor := readU16 packet 9,
              releaseMinor := readU16 packet 11,
              releaseMicro := if packet.length = 15 then readU16 packet 13
                              else byteAt packet 13,
              registerIp := r.address, registerPort := r.port,
              lastSeen := now, pendingInfoReqs := 0 })
    ∧ (mapGet (handleRegister now packet r reg)
          (r.address ++ ":" ++ toString (readU16 packet 3))).map
        (fun g => (g.gameId, g.confirmed, g.players, g.gameName))
      = some (readU32 packet 5, false, [], "Pending…")
    ∧ (∀ reg' : Registry, (reg'.map Prod.fst).Nodup →
        ((handleRegister now packet r reg').map Prod.fst).Nodup) := by
  have hmain : handleRegister now packet r reg
      = mapSet
          (mapDelete reg (r.address ++ ":" ++ toString (readU16 packet 3)))
          (r.address ++ ":" ++ toString (readU16 packet 3))
          { freshGameRec with
              id := r.address ++ ":" ++ toString (readU16 packet 3),
              ip := r.address, port := readU16 packet 3,
              gameId := readU32 packet 5, version := byteAt packet 2,
              releaseMajor := readU16 packet 9,
              releaseMinor := readU16 packet 11,
              releaseMicro := if packet.length = 15 then readU16 packet 13
                              else byteAt packet 13,
              registerIp := r.address, registerPort := r.port,
              lastSeen := now, pendingInfoReqs := 0 } := by
    unfold handleRegister
    simp only [if_pos hlen, if_neg hport, hex, if_pos hid,
      mapGet_mapDelete_self, Option.getD_none]
  refine ⟨hmain, ?_, fun reg' h => handleRegister_nodup_keys now packet r reg' h⟩
  rw [hmain, mapGet_mapSet_self]
  rfl

/-- C5 witness: the S1 REGISTER (game-id `0x04030201`) against a registry
whose record under the same key has game-id 99. -/
theorem register_gameId_change_resets_witness :
    ((regPkt15.length = 14 ∨ regPkt15.length = 15)
      ∧ ¬ readU16 regPkt15 3 < 1024
      ∧ mapGet oldIdReg ("203.0.113.7" ++ ":" ++ toString (readU16 regPkt15 3))
        = some { freshGameRec with
            gameId := 99, confirmed := true, gameName := "Old game",
            players := [sampleSlot] }
      ∧ ({ freshGameRec with
            gameId := 99, confirmed := true, gameName := "Old game",
            players := [sampleSlot] } : GameRec).gameId ≠ readU32 regPkt15 5)
    ∧ ((handleRegister 777 regPkt15 ⟨"203.0.113.7", 55000⟩ oldIdReg
        = mapSet
            (mapDelete oldIdReg
              ("203.0.113.7" ++ ":" ++ toString (readU16 regPkt15 3)))
            ("203.0.113.7" ++ ":" ++ toString (readU16 regPkt15 3))
            { freshGameRec with
                id := "203.0.113.7" ++ ":" ++ toString (readU16 regPkt15 3),
                ip := "203.0.113.7", port := readU16 regPkt15 3,
                gameId := readU32 regPkt15 5, version := byteAt regPkt15 2,
                releaseMajor := readU16 regPkt15 9,
                releaseMinor := readU16 regPkt15 11,
                releaseMicro := if regPkt15.length = 15
                                then readU16 regPkt15 13
                                else byteAt regPkt15 13,
                registerIp := "203.0.113.7", registerPort := 55000,
                lastSeen := 777, pendingInfoReqs := 0 })
      ∧ (mapGet (handleRegister 777 regPkt15 ⟨"203.0.113.7", 55000⟩ oldIdReg)
            ("203.0.113.7" ++ ":" ++ toString (readU16 regPkt15 3))).map
          (fun g => (g.gameId, g.confirmed, g.players, g.gameName))
        = some (readU32 regPkt15 5, false, [], "Pending…")
      ∧ (∀ reg' : Registry, (reg'.map Prod.fst).Nodup →
          ((handleRegister 777 regPkt15 ⟨"203.0.113.7", 55000⟩ reg').map
            Prod.fst).Nodup)) :=
  ⟨⟨by decide, by decide, by decide, by decide⟩,
   register_gameId_change_resets 777 regPkt15 ⟨"203.0.113.7", 55000⟩ oldIdReg
     { freshGameRec with
         gameId := 99, confirmed := true, gameName := "Old game",
         players := [sampleSlot] }
     (by decide) (by decide) (by decide) (by decide)⟩

/-! # HTTP events route (C7) -/

/-- C7: every GET whose URL starts with `/api/events/` is answered by the
events route: status 200 with the JSON shape
`{gameId, killFeed, chat, timeline, startTime}` — the stored buffers for
a known (percent-decoded) match key, the identical shape with empty
arrays and a null start time for an unknown one — and never by the 404
unknown-route error. -/
theorem eventsRoute_shape_never_404
    (url : String) (n : Nat) (ev : EventsMap) (gid : String)
    (hpre : jsStartsWith url "/api/events/" = true)
    (hdec : percentDecode (strDropChars (upToQuery url) 12) = some gid) :
    routeRequest "GET" url n ev = .events gid (mapGet ev gid)
    ∧ routeRequest "GET" url n ev ≠ .notFound
    ∧ respStatus (routeRequest "GET" url n ev) = 200
    ∧ (mapGet ev gid = none →
        eventsResponseBody gid (mapGet ev gid) = ⟨gid, [], [], [], none⟩) := by
  have hnotStatus : ¬ (("GET" : String) = "OPTIONS") := by decide
  have hnotApi : ¬ (("GET" : String) = "GET" ∧ url = "/api/status") := by
    rintro ⟨-, h2⟩
    rw [h2] at hpre
    exact absurd hpre (by decide)
  have hroute : routeRequest "GET" url n ev = .events gid (mapGet ev gid) := by
    unfold routeRequest
    rw [if_neg hnotStatus, if_neg hnotApi, if_pos ⟨rfl, hpre⟩]
    simp only [hdec]
  refine ⟨hroute, ?_, ?_, ?_⟩
  · rw [hroute]; intro h; exact TrackerResp.noConfusion h
  · rw [hroute]; rfl
  · intro h; rw [h]; rfl

/-- C7 witness: `GET /api/events/7.7.7.7%3A5000` against a store holding
that key. -/
theorem eventsRoute_shape_never_404_witness :
    (jsStartsWith "/api/events/7.7.7.7%3A5000" "/api/events/" = true
      ∧ percentDecode
          (strDropChars (upToQuery "/api/events/7.7.7.7%3A5000") 12)
        = some "7.7.7.7:5000")
    ∧ (routeRequest "GET" "/api/events/7.7.7.7%3A5000" 1
          [("7.7.7.7:5000", emptyStore 4)]
        = .events "7.7.7.7:5000"
            (mapGet [("7.7.7.7:5000", emptyStore 4)] "7.7.7.7:5000")
      ∧ routeRequest "GET" "/api/events/7.7.7.7%3A5000" 1
          [("7.7.7.7:5000", emptyStore 4)] ≠ .notFound
      ∧ respStatus (routeRequest "GET" "/api/events/7.7.7.7%3A5000" 1
          [("7.7.7.7:5000", emptyStore 4)]) = 200
      ∧ (mapGet [("7.7.7.7:5000", emptyStore 4)] "7.7.7.7:5000" = none →
          eventsResponseBody "7.7.7.7:5000"
            (mapGet [("7.7.7.7:5000", emptyStore 4)] "7.7.7.7:5000")
          = ⟨"7.7.7.7:5000", [], [], [], none⟩)) :=
  ⟨⟨by decide, by decide⟩,
   eventsRoute_shape_never_404 "/api/events/7.7.7.7%3A5000" 1
     [("7.7.7.7:5000", emptyStore 4)] "7.7.7.7:5000" (by decide) (by decide)⟩

/-! # Gamelog kill / chat packets (C6) -/

theorem head?_cons_dropLast_trim {α : Type} (a : α) (l : List α)
    (n : Nat) (hn : 1 ≤ n) :
    (if (a :: l).length > n then (a :: l).dropLast else a :: l).head?
      = some a := by
  by_cases h : (a :: l).length > n
  · rw [if_pos h]
    cases l with
    | nil => simp at h; omega
    | cons b t => rw [List.dropLast_cons₂]; rfl
  · rw [if_neg h]; rfl

theorem getLast?_append_trim {α : Type} (x : α) (l : List α)
    (n : Nat) (hn : 1 ≤ n) :
    (if (l ++ [x]).length > n then (l ++ [x]).drop 1 else l ++ [x]).getLast?
      = some x := by
  by_cases h : (l ++ [x]).length > n
  · rw [if_pos h]
    cases l with
    | nil => simp at h; omega
    | cons b t =>
      rw [List.cons_append, List.drop_one, List.tail_cons]
      exact List.getLast?_concat _
  · rw [if_neg h]; exact List.getLast?_concat _

/-- C6 counterexample: an 11-byte GAMELOG-CHAT whose single message byte
is NUL, from the IP of an active match, is dropped without appending
anything: the events map is returned unchanged (no store is even
created), although the claim requires every ≥ 11-byte opcode-32 packet's
decoded event to be appended to the matching store. -/
theorem gamelogChat_emptyMessage_counterexample :
    ([(32 : Nat), 0, 0, 0, 0, 0, 0, 0, 0, 0, 0].length ≥ 11
      ∧ findGameByIp pendingReg "7.7.7.7"
        = some ("7.7.7.7:5000", pendingRec))
    ∧ handleGamelogChat 0 "t" [32, 0, 0, 0, 0, 0, 0, 0, 0, 0, 0]
        ⟨"7.7.7.7", 9999⟩ pendingReg [] = [] := by
  exact ⟨⟨by decide, by decide⟩, by decide⟩

/-- C6 (amended): a 13-byte GAMELOG-KILL is decoded (64-bit µs game
time, killer/victim slots, weapon type and id) and its kill event is
appended to the event store of the first match whose IP equals the
sender's IP — the sender's port is ignored entirely — surviving the
ring-buffer caps (newest entry at the kill-feed front and timeline
back); a ≥ 11-byte GAMELOG-CHAT is decoded and appended likewise
**provided** its message is nonempty after NUL-stripping and trimming
(an empty decoded message is dropped, which the original claim did not
allow). -/
theorem gamelogPackets_append_events
    (now : Nat) (iso : String) (packet packet2 : List Nat) (r r2 : Rinfo)
    (reg : Registry) (ev ev2 : EventsMap) (k k2 : String) (g g2 : GameRec)
    (hlen : packet.length = 13)
    (hfind : findGameByIp reg r.address = some (k, g))
    (hlen2 : 11 ≤ packet2.length)
    (hmsg : parseChatMessage packet2 ≠ "")
    (hfind2 : findGameByIp reg r2.address = some (k2, g2)) :
    (∃ st,
      mapGet (handleGamelogKill now iso packet r reg ev).2 g.id = some st
      ∧ st.killFeed.head?
        = some { gameTimeUs := readU32 packet 1
                   + 4294967296 * readU32 packet 5,
                 timestampIso := iso,
                 killer := getUniquePlayerName g.players (byteAt packet 9),
                 killerNum := byteAt packet 9,
                 killed := getUniquePlayerName g.players (byteAt packet 10),
                 killedNum := byteAt packet 10,
                 weapon := getWeaponName (byteAt packet 11)
                   (byteAt packet 12),
                 weaponType := byteAt packet 11,
                 weaponId := byteAt packet 12 }
      ∧ st.timeline.getLast?
        = some (.kill
            { gameTimeUs := readU32 packet 1
                + 4294967296 * readU32 packet 5,
              timestampIso := iso,
              killer := getUniquePlayerName g.players (byteAt packet 9),
              killerNum := byteAt packet 9,
              killed := getUniquePlayerName g.players (byteAt packet 10),
              killedNum := byteAt packet 10,
              weapon := getWeaponName (byteAt packet 11) (byteAt packet 12),
              weaponType := byteAt packet 11,
              weaponId := byteAt packet 12 }))
    ∧ (∃ st2,
      mapGet (handleGamelogChat now iso packet2 r2 reg ev2) g2.id = some st2
      ∧ st2.chat.getLast?
        = some { gameTimeUs := readU32 packet2 1
                   + 4294967296 * readU32 packet2 5,
                 timestampIso := iso,
                 player := getUniquePlayerName g2.players (byteAt packet2 9),
                 fromNum := byteAt packet2 9,
                 message := parseChatMessage packet2 }
      ∧ st2.timeline.getLast?
        = some (.chat
            { gameTimeUs := readU32 packet2 1
                + 4294967296 * readU32 packet2 5,
              timestampIso := iso,
              player := getUniquePlayerName g2.players (byteAt packet2 9),
              fromNum := byteAt packet2 9,
              message := parseChatMessage packet2 }))
    ∧ (∀ a p q, handleGamelogKill now iso packet ⟨a, p⟩ reg ev
        = handleGamelogKill now iso packet ⟨a, q⟩ reg ev)
    ∧ (∀ a p q, handleGamelogChat now iso packet2 ⟨a, p⟩ reg ev2
        = handleGamelogChat now iso packet2 ⟨a, q⟩ reg ev2) := by
  refine ⟨?_, ?_, fun a p q => rfl, fun a p q => rfl⟩
  · unfold handleGamelogKill
    simp only [if_neg (show ¬ packet.length < 13 by omega), hfind]
    refine ⟨_, mapGet_mapSet_self _ _ _, ?_, ?_⟩
    · exact head?_cons_dropLast_trim _ _ 100 (by omega)
    · exact getLast?_append_trim _ _ 500 (by omega)
  · unfold handleGamelogChat
    simp only [if_neg (show ¬ packet2.length < 11 by omega), hfind2,
      if_neg hmsg]
    refine ⟨_, mapGet_mapSet_self _ _ _, ?_, ?_⟩
    · exact getLast?_append_trim _ _ 200 (by omega)
    · exact getLast?_append_trim _ _ 500 (by omega)

/-- C6 witness: the concrete kill and chat packets against the active
match on `7.7.7.7`, each from a fresh ephemeral port. -/
theorem gamelogPackets_append_events_witness :
    (killPkt13.length = 13
      ∧ findGameByIp pendingReg "7.7.7.7" = some ("7.7.7.7:5000", pendingRec)
      ∧ 11 ≤ chatPktHi.length
      ∧ parseChatMessage chatPktHi ≠ "")
    ∧ (∃ st,
      mapGet (handleGamelogKill 5 "t" killPkt13 ⟨"7.7.7.7", 9999⟩ pendingReg
        []).2 pendingRec.id = some st
      ∧ st.killFeed.head?
        = some { gameTimeUs := readU32 killPkt13 1
                   + 4294967296 * readU32 killPkt13 5,
                 timestampIso := "t",
                 killer := getUniquePlayerName pendingRec.players
                   (byteAt killPkt13 9),
                 killerNum := byteAt killPkt13 9,
                 killed := getUniquePlayerName pendingRec.players
                   (byteAt killPkt13 10),
                 killedNum := byteAt killPkt13 10,
                 weapon := getWeaponName (byteAt killPkt13 11)
                   (byteAt killPkt13 12),
                 weaponType := byteAt killPkt13 11,
                 weaponId := byteAt killPkt13 12 }
      ∧ st.timeline.getLast?
        = some (.kill
            { gameTimeUs := readU32 killPkt13 1
                + 4294967296 * readU32 killPkt13 5,
              timestampIso := "t",
              killer := getUniquePlayerName pendingRec.players
                (byteAt killPkt13 9),
              killerNum := byteAt killPkt13 9,
              killed := getUniquePlayerName pendingRec.players
                (byteAt killPkt13 10),
              killedNum := byteAt killPkt13 10,
              weapon := getWeaponName (byteAt killPkt13 11)
                (byteAt killPkt13 12),
              weaponType := byteAt killPkt13 11,
              weaponId := byteAt killPkt13 12 })) :=
  ⟨⟨by decide, by decide, by decide, by decide⟩,
   (gamelogPackets_append_events 5 "t" killPkt13 chatPktHi
     ⟨"7.7.7.7", 9999⟩ ⟨"7.7.7.7", 8888⟩ pendingReg [] []
     "7.7.7.7:5000" "7.7.7.7:5000" pendingRec pendingRec
     (by decide) (by decide) (by decide) (by decide) (by decide)).1⟩

/-! # Merged gamelog timeline (C8) -/

theorem countP_dedupAux (l : List TLEvent) (seen : List String)
    (k : String) :
    (dedupAux l seen).countP (fun e => dedupKey e == k)
      = if k ∈ seen then 0
        else if l.any (fun e => dedupKey e == k) then 1 else 0 := by
  induction l generalizing seen with
  | nil => simp [dedupAux]
  | cons e rest ih =>
    by_cases hs : dedupKey e ∈ seen
    · rw [dedupAux, if_pos hs, ih]
      by_cases hk : k ∈ seen
      · simp [hk]
      · have hek : ¬ dedupKey e = k := fun h => hk (h ▸ hs)
        simp [hk, hek]
    · rw [dedupAux, if_neg hs, List.countP_cons, ih]
      by_cases hek : dedupKey e = k
      · subst hek
        have hk : ¬ dedupKey e ∈ seen := hs
        simp [hk]
      · have hks : (k ∈ dedupKey e :: seen) ↔ k ∈ seen := by
          constructor
          · intro h
            rcases List.mem_cons.mp h with h | h
            · exact absurd h.symm hek
            · exact h
          · exact List.mem_cons_of_mem _
        by_cases hk : k ∈ seen
        · simp [hks, hk, hek]
        · simp [hks, hk, hek]

theorem mem_insertTs (e x : TLEvent) (l : List TLEvent) :
    x ∈ insertTs e l → x = e ∨ x ∈ l := by
  induction l with
  | nil => intro h; simpa [insertTs] using h
  | cons y ys ih =>
    intro h
    rw [insertTs] at h
    split at h
    · rcases List.mem_cons.mp h with h | h
      · exact Or.inl h
      · exact Or.inr h
    · rcases List.mem_cons.mp h with h | h
      · exact Or.inr (h ▸ List.mem_cons_self _ _)
      · rcases ih h with h | h
        · exact Or.inl h
        · exact Or.inr (List.mem_cons_of_mem _ h)

theorem sorted_insertTs (e : TLEvent) (l : List TLEvent)
    (hl : l.Pairwise (fun a b => evTs a ≤ evTs b)) :
    (insertTs e l).Pairwise (fun a b => evTs a ≤ evTs b) := by
  induction l with
  | nil => simp [insertTs]
  | cons y ys ih =>
    rcases List.pairwise_cons.mp hl with ⟨hy, hys⟩
    rw [insertTs]
    split
    · rename_i hlt
      refine List.pairwise_cons.mpr ⟨?_, hl⟩
      intro b hb
      rcases List.mem_cons.mp hb with hb | hb
      · exact le_of_lt (hb ▸ hlt)
      · exact le_trans (le_of_lt hlt) (hy b hb)
    · rename_i hge
      refine List.pairwise_cons.mpr ⟨?_, ih hys⟩
      intro b hb
      rcases mem_insertTs e b ys hb with hb | hb
      · exact hb ▸ Nat.le_of_not_lt hge
      · exact hy b hb

theorem perm_insertTs (e : TLEvent) (l : List TLEvent) :
    List.Perm (insertTs e l) (e :: l) := by
  induction l with
  | nil => simp [insertTs]
  | cons y ys ih =>
    rw [insertTs]
    split
    · exact List.Perm.refl _
    · exact (ih.cons y).trans (List.Perm.swap e y ys)

theorem sortByTs_go_sorted (l acc : List TLEvent)
    (hacc : acc.Pairwise (fun a b => evTs a ≤ evTs b)) :
    (l.foldl (fun a e => insertTs e a) acc).Pairwise
      (fun a b => evTs a ≤ evTs b) := by
  induction l generalizing acc with
  | nil => exact hacc
  | cons e rest ih => exact ih _ (sorted_insertTs e acc hacc)

theorem sortByTs_go_perm (l acc : List TLEvent) :
    List.Perm (l.foldl (fun a e => insertTs e a) acc) (acc ++ l) := by
  induction l generalizing acc with
  | nil => simp
  | cons e rest ih =>
    refine (ih (insertTs e acc)).trans ?_
    refine ((perm_insertTs e acc).append_right rest).trans ?_
    exact List.perm_middle.symm

theorem perm_sortByTs (l : List TLEvent) : List.Perm (sortByTs l) l := by
  simpa [sortByTs] using sortByTs_go_perm l []

theorem mem_seenAfter_of_mem (l : List TLEvent) (seen : List String)
    (k : String) (h : k ∈ seen) : k ∈ seenAfter l seen := by
  induction l generalizing seen with
  | nil => exact h
  | cons e rest ih =>
    rw [seenAfter]
    split
    · exact ih _ h
    · exact ih _ (List.mem_cons_of_mem _ h)

theorem key_mem_seenAfter (l : List TLEvent) (seen : List String)
    (e : TLEvent) (h : e ∈ l) : dedupKey e ∈ seenAfter l seen := by
  induction l generalizing seen with
  | nil => cases h
  | cons x rest ih =>
    rw [seenAfter]
    rcases List.mem_cons.mp h with h | h
    · subst h
      split
      · rename_i hin
        exact mem_seenAfter_of_mem _ _ _ hin
      · exact mem_seenAfter_of_mem _ _ _ (List.mem_cons_self _ _)
    · split
      · exact ih _ h
      · exact ih _ h

theorem dedupAux_append (xs ys : List TLEvent) (seen : List String) :
    dedupAux (xs ++ ys) seen
      = dedupAux xs seen ++ dedupAux ys (seenAfter xs seen) := by
  induction xs generalizing seen with
  | nil => simp [dedupAux, seenAfter]
  | cons e rest ih =>
    rw [List.cons_append, dedupAux, dedupAux, seenAfter]
    by_cases hc : dedupKey e ∈ seen
    · simp only [if_pos hc]
      exact ih seen
    · simp only [if_neg hc, List.cons_append]
      rw [ih (dedupKey e :: seen)]

theorem dedupAux_all_seen (ys : List TLEvent) (seen : List String)
    (h : ∀ e ∈ ys, dedupKey e ∈ seen) : dedupAux ys seen = [] := by
  induction ys with
  | nil => rfl
  | cons e rest ih =>
    rw [dedupAux, if_pos (h e (List.mem_cons_self _ _))]
    exact ih (fun x hx => h x (List.mem_cons_of_mem _ hx))

theorem dedup_self_append (xs : List TLEvent) :
    dedupEvents (xs ++ xs) = dedupEvents xs := by
  unfold dedupEvents
  rw [dedupAux_append,
    dedupAux_all_seen xs _ (fun e he => key_mem_seenAfter xs [] e he),
    List.append_nil]

/-- C8: the merged timeline built from the local watcher's events plus
any number of uploader streams (i) contains exactly one entry per dedup
key `(timestamp, type, killer, victim, player)` present in the input —
so the same kill observed by all K+1 sources collapses to a single
entry — (ii) is sorted ascending by timestamp, and (iii) is idempotent:
merging a list with a second copy of itself gives the same result as
merging it alone. -/
theorem mergedTimeline_dedup_sorted_idem
    (localEvents : List TLEvent) (clientEvents : List (List TLEvent)) :
    (∀ k : String,
      (getMergedTimeline localEvents clientEvents).countP
          (fun e => dedupKey e == k)
        = if (localEvents ++ clientEvents.flatten).any
              (fun e => dedupKey e == k) then 1 else 0)
    ∧ (getMergedTimeline localEvents clientEvents).Pairwise
        (fun a b => evTs a ≤ evTs b)
    ∧ (∀ xs : List TLEvent,
        getMergedTimeline xs [xs] = getMergedTimeline xs []) := by
  refine ⟨?_, ?_, ?_⟩
  · intro k
    unfold getMergedTimeline
    rw [(perm_sortByTs _).countP_eq]
    unfold dedupEvents
    rw [countP_dedupAux]
    simp
  · exact sortByTs_go_sorted _ [] (by simp)
  · intro xs
    show sortByTs (dedupEvents (xs ++ [xs].flatten))
      = sortByTs (dedupEvents (xs ++ ([] : List (List TLEvent)).flatten))
    simp only [List.flatten_cons, List.flatten_nil, List.append_nil]
    rw [dedup_self_append]

/-! # Register-ACK triplet on first confirmation (C3) -/

theorem mapGet_nil {β : Type} (k : String) :
    mapGet ([] : List (String × β)) k = none := rfl

theorem mapSet_nil {β : Type} (k : String) (v : β) :
    mapSet ([] : List (String × β)) k v = [(k, v)] := rfl

theorem mapSet_cons_eq {β : Type} (m : List (String × β)) (k : String)
    (x v : β) : mapSet ((k, x) :: m) k v = (k, v) :: m := by
  simp [mapSet]

theorem parseGameInfoLite_confirmed (packet : List Nat) (g : GameRec) :
    (parseGameInfoLite packet g).confirmed = g.confirmed := by
  unfold parseGameInfoLite
  dsimp only
  split <;> rfl

theorem parseGameInfoFull_confirmed (summary : List LogPlayer)
    (packet : List Nat) (g : GameRec) :
    (parseGameInfoFull summary packet g).confirmed = g.confirmed := by
  unfold parseGameInfoFull
  dsimp only
  repeat' first | rfl | split

theorem findGameExact_mem (reg : Registry) (r : Rinfo)
    (kv : String × GameRec) : findGameExact reg r = some kv → kv ∈ reg := by
  induction reg with
  | nil => intro h; exact absurd h (by simp [findGameExact])
  | cons kv0 reg ih =>
    intro h
    rw [findGameExact] at h
    split at h
    · exact (Option.some.inj h) ▸ List.mem_cons_self _ _
    · exact List.mem_cons_of_mem _ (ih h)

theorem findGameByIp_mem (reg : Registry) (a : String)
    (kv : String × GameRec) : findGameByIp reg a = some kv → kv ∈ reg := by
  induction reg with
  | nil => intro h; exact absurd h (by simp [findGameByIp])
  | cons kv0 reg ih =>
    intro h
    rw [findGameByIp] at h
    split at h
    · exact (Option.some.inj h) ▸ List.mem_cons_self _ _
    · exact List.mem_cons_of_mem _ (ih h)

theorem findGame_mem (reg : Registry) (r : Rinfo) (kv : String × GameRec) :
    findGame reg r = some kv → kv ∈ reg := by
  unfold findGame
  cases he : findGameExact reg r with
  | some kv0 =>
    intro h
    exact (Option.some.inj h) ▸ findGameExact_mem reg r kv0 he
  | none =>
    intro h
    exact findGameByIp_mem reg r.address kv h

/-- On a registry whose records are all confirmed, an info response never
dispatches a register-ACK, and every record stays confirmed. -/
theorem infoResponse_confirmed_no_ack (now : Nat) (iso : String)
    (summary : List LogPlayer) (packet : List Nat) (r : Rinfo)
    (reg : Registry) (hall : ∀ kv ∈ reg, kv.2.confirmed = true) :
    (handleGameInfoResponse now iso summary packet r reg).2 = []
    ∧ ∀ kv ∈ (handleGameInfoResponse now iso summary packet r reg).1,
        kv.2.confirmed = true := by
  unfold handleGameInfoResponse
  cases hfind : findGame reg r with
  | none => exact ⟨rfl, hall⟩
  | some kg =>
    obtain ⟨k, g0⟩ := kg
    have hg0 : g0.confirmed = true := hall (k, g0) (findGame_mem reg r _ hfind)
    by_cases hc1 : byteAt packet 0 = 5 ∧ packet.length = 73
    · simp only [hfind, if_pos hc1]
      have hgc : (parseGameInfoLite packet
          { g0 with pendingInfoReqs := g0.pendingInfoReqs - 1 }).confirmed
          = true := by
        rw [parseGameInfoLite_confirmed]; exact hg0
      constructor
      · simp [hgc]
      · intro kv hkv
        rcases mem_mapSet _ _ _ _ hkv with h | h
        · rw [h]
        · exact hall kv h
    · by_cases hc2 : byteAt packet 0 = 3
      · simp only [hfind, if_neg hc1, if_pos hc2]
        have hgc : (parseGameInfoFull summary packet
            { g0 with pendingInfoReqs := g0.pendingInfoReqs - 1 }).confirmed
            = true := by
          rw [parseGameInfoFull_confirmed]; exact hg0
        constructor
        · simp [hgc]
        · intro kv hkv
          rcases mem_mapSet _ _ _ _ hkv with h | h
          · rw [h]
          · exact hall kv h
      · simp only [hfind, if_neg hc1, if_neg hc2]
        constructor
        · trivial
        · intro kv hkv
          rcases mem_mapSet _ _ _ _ hkv with h | h
          · rw [h]; exact hg0
          · exact hall kv h

/-- On a registry whose records are all confirmed, an arbitrary sequence
of further info responses never dispatches any register-ACK. -/
theorem processInfoPackets_no_ack (now : Nat) (iso : String)
    (summary : List LogPlayer) (cont : List (List Nat × Rinfo))
    (reg : Registry) (hall : ∀ kv ∈ reg, kv.2.confirmed = true) :
    (processInfoPackets now iso summary reg cont).2 = [] := by
  induction cont generalizing reg with
  | nil => rfl
  | cons pr rest ih =>
    obtain ⟨p, r⟩ := pr
    have h := infoResponse_confirmed_no_ack now iso summary p r reg hall
    rw [processInfoPackets]
    dsimp only
    rw [h.1, ih _ h.2]
    rfl

theorem parseGameInfoLite_registerIp (packet : List Nat) (g : GameRec) :
    (parseGameInfoLite packet g).registerIp = g.registerIp := by
  unfold parseGameInfoLite
  dsimp only
  split <;> rfl

theorem parseGameInfoLite_registerPort (packet : List Nat) (g : GameRec) :
    (parseGameInfoLite packet g).registerPort = g.registerPort := by
  unfold parseGameInfoLite
  dsimp only
  split <;> rfl

/-- A 73-byte lite-info arriving from the ip:port of the single,
not-yet-confirmed record dispatches the ACK triplet to that record's
register source address, and leaves a registry of confirmed records. -/
theorem liteResponse_confirms_singleton
    (now : Nat) (iso : String) (summary : List LogPlayer)
    (litePkt : List Nat) (k : String) (g : GameRec) (r : Rinfo)
    (hip : g.ip = r.address) (hpt : g.port = r.port)
    (hconf : g.confirmed = false)
    (hlop : byteAt litePkt 0 = 5) (hllen : litePkt.length = 73) :
    (handleGameInfoResponse now iso summary litePkt r [(k, g)]).2
      = [⟨g.registerIp, g.registerPort, 0⟩,
         ⟨g.registerIp, g.registerPort, 25⟩,
         ⟨g.registerIp, g.registerPort, 50⟩]
    ∧ ∀ kv ∈ (handleGameInfoResponse now iso summary litePkt r [(k, g)]).1,
        kv.2.confirmed = true := by
  have hfind : findGame [(k, g)] r = some (k, g) := by
    unfold findGame findGameExact
    rw [if_pos ⟨hip, hpt⟩]
  unfold handleGameInfoResponse
  rw [hfind]
  simp only [if_pos (⟨hlop, hllen⟩ :
    byteAt litePkt 0 = 5 ∧ litePkt.length = 73)]
  constructor
  · dsimp only
    rw [parseGameInfoLite_confirmed]
    have hconf1 : ({ g with
        pendingInfoReqs := g.pendingInfoReqs - 1 } : GameRec).confirmed
        = false := hconf
    rw [hconf1]
    simp only [Bool.false_eq_true, if_false]
    unfold ackTriplet
    rw [parseGameInfoLite_registerIp, parseGameInfoLite_registerPort]
  · dsimp only
    rw [mapSet_cons_eq]
    intro kv hkv
    rcases List.mem_cons.mp hkv with h | h
    · rw [h]
    · cases h

/-- C3: starting from an empty registry, a valid REGISTER (announced
game port ≥ 1024) followed by exactly one 73-byte lite-info whose
embedded game-id matches the announced one, arriving from the announced
game port, dispatches the register-ACK (single byte 21) exactly 3 times,
scheduled at 0 / 25 / 50 ms, to the REGISTER *source* address (which may
differ from the game port); and **any** continuation of the sequence by
further lite- or full-info responses — any packets, any senders —
dispatches no further ACK: the triplet is emitted only on the first
transition into confirmed. -/
theorem registerAck_triplet_once
    (now0 now1 now2 : Nat) (iso1 iso2 : String)
    (summary summary2 : List LogPlayer)
    (regPkt litePkt : List Nat) (src : Rinfo)
    (hlen : regPkt.length = 14 ∨ regPkt.length = 15)
    (hport : ¬ readU16 regPkt 3 < 1024)
    (hlop : byteAt litePkt 0 = 5) (hllen : litePkt.length = 73)
    (_hmatch : readU32 litePkt 7 = readU32 regPkt 5) :
    (handleGameInfoResponse now1 iso1 summary litePkt
        ⟨src.address, readU16 regPkt 3⟩
        (handleRegister now0 regPkt src [])).2
      = [⟨src.address, src.port, 0⟩, ⟨src.address, src.port, 25⟩,
         ⟨src.address, src.port, 50⟩]
    ∧ ∀ cont, (processInfoPackets now2 iso2 summary2
        (handleGameInfoResponse now1 iso1 summary litePkt
          ⟨src.address, readU16 regPkt 3⟩
          (handleRegister now0 regPkt src [])).1 cont).2 = [] := by
  have hreg1 : handleRegister now0 regPkt src []
      = [(src.address ++ ":" ++ toString (readU16 regPkt 3),
          { freshGameRec with
              id := src.address ++ ":" ++ toString (readU16 regPkt 3),
              ip := src.address, port := readU16 regPkt 3,
              gameId := readU32 regPkt 5, version := byteAt regPkt 2,
              releaseMajor := readU16 regPkt 9,
              releaseMinor := readU16 regPkt 11,
              releaseMicro := if regPkt.length = 15 then readU16 regPkt 13
                              else byteAt regPkt 13,
              registerIp := src.address, registerPort := src.port,
              lastSeen := now0, pendingInfoReqs := 0 })] := by
    unfold handleRegister
    simp only [if_pos hlen, if_neg hport, mapGet_nil, Option.getD_none,
      mapSet_nil]
  rw [hreg1]
  have h := liteResponse_confirms_singleton now1 iso1 summary litePkt
    (src.address ++ ":" ++ toString (readU16 regPkt 3))
    { freshGameRec with
        id := src.address ++ ":" ++ toString (readU16 regPkt 3),
        ip := src.address, port := readU16 regPkt 3,
        gameId := readU32 regPkt 5, version := byteAt regPkt 2,
        releaseMajor := readU16 regPkt 9,
        releaseMinor := readU16 regPkt 11,
        releaseMicro := if regPkt.length = 15 then readU16 regPkt 13
                        else byteAt regPkt 13,
        registerIp := src.address, registerPort := src.port,
        lastSeen := now0, pendingInfoReqs := 0 }
    ⟨src.address, readU16 regPkt 3⟩ rfl rfl rfl hlop hllen
  exact ⟨h.1, fun cont =>
    processInfoPackets_no_ack now2 iso2 summary2 cont _ h.2⟩

/-- C3 witness: the S1 REGISTER from `203.0.113.7:55000` (game port
5000) followed by a matching 73-byte lite-info from `203.0.113.7:5000`,
then an empty continuation. -/
theorem registerAck_triplet_once_witness :
    ((regPkt15.length = 14 ∨ regPkt15.length = 15)
      ∧ ¬ readU16 regPkt15 3 < 1024
      ∧ byteAt liteMatchPkt 0 = 5 ∧ liteMatchPkt.length = 73
      ∧ readU32 liteMatchPkt 7 = readU32 regPkt15 5)
    ∧ ((handleGameInfoResponse 2000 "t" [] liteMatchPkt
          ⟨"203.0.113.7", readU16 regPkt15 3⟩
          (handleRegister 1000 regPkt15 ⟨"203.0.113.7", 55000⟩ [])).2
        = [⟨"203.0.113.7", 55000, 0⟩, ⟨"203.0.113.7", 55000, 25⟩,
           ⟨"203.0.113.7", 55000, 50⟩]
      ∧ ∀ cont, (processInfoPackets 3000 "u" []
          (handleGameInfoResponse 2000 "t" [] liteMatchPkt
            ⟨"203.0.113.7", readU16 regPkt15 3⟩
            (handleRegister 1000 regPkt15 ⟨"203.0.113.7", 55000⟩ [])).1
          cont).2 = []) :=
  ⟨⟨by decide, by decide, by decide, by decide, by decide⟩,
   registerAck_triplet_once 1000 2000 3000 "t" "u" [] [] regPkt15
     liteMatchPkt ⟨"203.0.113.7", 55000⟩
     (by decide) (by decide) (by decide) (by decide) (by decide)⟩

end DXX
